import Mathlib

/-!
Verification development for the SupportMind retrieval-and-ranking pipeline.

The definitions below are a shallow embedding of the Python sources:
  - src/retrieval/chunking.py     (sliding-window chunking, per-record chunk extraction)
  - src/retrieval/build_index.py  (full index build, incremental KB add)
  - src/retrieval/query.py        (similarity query against the vector collection)
  - src/agent/agent.py            (the compare pipeline of the ranker agent)

Text is modelled as `List Char`; machine strings used as identifiers stay `String`.
External collaborators (vector store, relational store, embedding model, ranking
service, JSON decoder) are modelled as explicit environment fields, and the
non-terminating `while` loop of `_sliding_chunks` is modelled with explicit fuel,
so that `none` denotes divergence of the source loop.
-/

namespace SupportMind

/-! ### Chunker: src/retrieval/chunking.py -/

/-- Python `str.strip` character class. -/
def isPySpace (c : Char) : Bool := c.isWhitespace

/-- Python `s.strip()` on a character list: drop whitespace from both ends. -/
def stripChars (l : List Char) : List Char :=
  ((l.dropWhile isPySpace).reverse.dropWhile isPySpace).reverse

/-- Python `s.strip()` on a `String`: this is `_safe_str` restricted to string input. -/
def stripStr (s : String) : String := String.mk (stripChars s.data)

/-- The `while start < len(text)` loop of `_sliding_chunks`, with explicit fuel.
`none` means the fuel ran out, i.e. the source loop has not terminated within
`fuel` iterations. Each iteration appends `text[start:start+size]` and advances
`start` to `end - overlap`, mirroring chunking.py lines 38-44. -/
def slidingLoop (t : List Char) (size overlap : Nat) :
    Nat → Nat → List (List Char) → Option (List (List Char))
  | 0, _, _ => none
  | fuel + 1, start, acc =>
    if start < t.length then
      let stop := start + size
      let chunk := (t.drop start).take size
      if t.length ≤ stop then some (acc ++ [chunk])
      else slidingLoop t size overlap fuel (stop - overlap) (acc ++ [chunk])
    else some acc

/-- Fueled model of `_sliding_chunks(text, size, overlap)` (chunking.py lines 30-45):
empty input gives `[]`; trimmed text of length at most `size` is a single window;
longer text runs the sliding-window loop. -/
def slidingChunksFuel (fuel : Nat) (text : List Char) (size overlap : Nat) :
    Option (List (List Char)) :=
  if text = [] then some []
  else
    let t := stripChars text
    if t.length ≤ size then some (if t = [] then [] else [t])
    else slidingLoop t size overlap fuel 0 []

/-- Model of `_sliding_chunks` with fuel `text.length + 1`, which suffices for
every terminating run of the source loop (the loop advances by at least one
character per iteration whenever `overlap < size`). -/
def slidingChunks (text : List Char) (size overlap : Nat) : Option (List (List Char)) :=
  slidingChunksFuel (text.length + 1) text size overlap

theorem length_dropWhile_le (p : Char → Bool) (l : List Char) :
    (l.dropWhile p).length ≤ l.length :=
  (List.dropWhile_sublist (l := l) (p := p)).length_le

theorem stripChars_length_le (l : List Char) : (stripChars l).length ≤ l.length := by
  unfold stripChars
  have h1 : (l.dropWhile isPySpace).length ≤ l.length := length_dropWhile_le isPySpace l
  have h2 : ((l.dropWhile isPySpace).reverse.dropWhile isPySpace).length ≤
      (l.dropWhile isPySpace).reverse.length :=
    length_dropWhile_le isPySpace _
  simp only [List.length_reverse] at *
  omega

/-- Invariant of the sliding loop: with `overlap < size`, enough fuel, and a start
inside the text, the loop terminates and produces exactly the windows starting at
`start + i * (size - overlap)`. -/
theorem slidingLoop_spec (t : List Char) (size overlap : Nat) (hov : overlap < size) :
    ∀ (fuel start : Nat) (acc : List (List Char)),
      start < t.length → t.length - start ≤ fuel →
      ∃ m : Nat, 0 < m ∧
        slidingLoop t size overlap fuel start acc =
          some (acc ++ (List.range m).map fun i =>
            (t.drop (start + i * (size - overlap))).take size) ∧
        (∀ i : Nat, i + 1 < m → start + i * (size - overlap) + size < t.length) ∧
        t.length ≤ start + (m - 1) * (size - overlap) + size ∧
        start + (m - 1) * (size - overlap) < t.length := by
  intro fuel
  induction fuel with
  | zero => intro start acc h1 h2; omega
  | succ fuel ih =>
    intro start acc h1 h2
    by_cases hstop : t.length ≤ start + size
    · refine ⟨1, by omega, ?_, by omega, by simpa using hstop, by simpa using h1⟩
      simp [slidingLoop, if_pos h1, if_pos hstop, List.range_succ]
    · push_neg at hstop
      have hstep : 0 < size - overlap := by omega
      have hrec := ih (start + size - overlap) (acc ++ [(t.drop start).take size])
        (by omega) (by omega)
      obtain ⟨m, hm, heq, hmid, hlast, hin⟩ := hrec
      have hmul : ∀ j : Nat, start + size - overlap + j * (size - overlap) =
          start + (j + 1) * (size - overlap) := by
        intro j
        have hj : (j + 1) * (size - overlap) = j * (size - overlap) + (size - overlap) := by
          ring
        omega
      refine ⟨m + 1, by omega, ?_, ?_, ?_, ?_⟩
      · have hunf : slidingLoop t size overlap (fuel + 1) start acc =
            slidingLoop t size overlap fuel (start + size - overlap)
              (acc ++ [(t.drop start).take size]) := by
          simp only [slidingLoop, if_pos h1]
          rw [if_neg (by omega)]
        rw [hunf, heq]
        congr 1
        have hr : List.range (m + 1) = 0 :: (List.range m).map Nat.succ :=
          List.range_succ_eq_map m
        rw [hr, List.map_cons, List.map_map]
        simp only [Nat.zero_mul, Nat.add_zero, List.append_assoc, List.singleton_append]
        congr 1
        congr 1
        apply List.map_congr_left
        intro i _
        simp only [Function.comp_apply, Nat.succ_eq_add_one]
        rw [hmul i]
      · intro i hi
        match i with
        | 0 => simpa using hstop
        | j + 1 =>
          have hb := hmid j (by omega)
          rw [hmul j] at hb
          exact hb
      · have hb := hlast
        rw [hmul (m - 1)] at hb
        have hm1 : m - 1 + 1 = m := by omega
        rw [hm1] at hb
        simpa using hb
      · have hb := hin
        rw [hmul (m - 1)] at hb
        have hm1 : m - 1 + 1 = m := by omega
        rw [hm1] at hb
        simpa using hb

/-- C2: for text whose trimmed length exceeds `size` and `0 ≤ overlap < size`,
`_sliding_chunks` terminates and yields windows that (a) start every
`size - overlap` characters, (b) all have length exactly `size` except possibly
the last, (c) consecutively share exactly `overlap` characters (window `i+1`
starts `overlap` characters before window `i` ends), and (d) end exactly at the
trimmed text's length. -/
theorem sliding_chunks_window_spec (text : List Char) (size overlap : Nat)
    (hov : overlap < size) (hlen : size < (stripChars text).length) :
    ∃ (cs : List (List Char)) (hpos : 0 < cs.length),
      slidingChunks text size overlap = some cs ∧
      (∀ (i : Nat) (hi : i < cs.length),
        cs.get ⟨i, hi⟩ = ((stripChars text).drop (i * (size - overlap))).take size) ∧
      (∀ (i : Nat) (hi : i + 1 < cs.length), (cs.get ⟨i, by omega⟩).length = size) ∧
      (∀ (i : Nat) (hi : i + 1 < cs.length),
        (cs.get ⟨i, by omega⟩).drop (size - overlap) = (cs.get ⟨i + 1, hi⟩).take overlap) ∧
      (cs.length - 1) * (size - overlap) +
        (cs.get ⟨cs.length - 1, by omega⟩).length = (stripChars text).length := by
  have htext : text ≠ [] := by
    intro h
    rw [h] at hlen
    simp [stripChars] at hlen
  have hstart : 0 < (stripChars text).length := by omega
  have hfuel : (stripChars text).length - 0 ≤ text.length + 1 := by
    have := stripChars_length_le text
    omega
  obtain ⟨m, hm, heq, hmid, hlast, hin⟩ :=
    slidingLoop_spec (stripChars text) size overlap hov (text.length + 1) 0 [] hstart hfuel
  simp only [Nat.zero_add] at heq hmid hlast hin
  refine ⟨(List.range m).map fun i =>
    ((stripChars text).drop (i * (size - overlap))).take size, by simpa using hm, ?_, ?_, ?_, ?_, ?_⟩
  · unfold slidingChunks slidingChunksFuel
    rw [if_neg htext, if_neg (by omega)]
    simpa using heq
  · intro i hi
    simp only [List.length_map, List.length_range] at hi
    simp [List.get_eq_getElem, List.getElem_map, List.getElem_range]
  · intro i hi
    simp only [List.length_map, List.length_range] at hi
    have hb := hmid i (by omega)
    simp [List.get_eq_getElem, List.getElem_map, List.getElem_range,
      List.length_take, List.length_drop]
    omega
  · intro i hi
    simp only [List.length_map, List.length_range] at hi
    have hb := hmid i (by omega)
    simp only [List.get_eq_getElem, List.getElem_map, List.getElem_range]
    rw [List.drop_take, List.drop_drop, List.take_take]
    have h1 : size - (size - overlap) = overlap := by omega
    have h2 : i * (size - overlap) + (size - overlap) = (i + 1) * (size - overlap) := by ring
    have h3 : min overlap size = overlap := by omega
    rw [h1, h2, h3]
  · simp only [List.length_map, List.length_range, List.get_eq_getElem,
      List.getElem_map, List.getElem_range, List.length_take, List.length_drop]
    omega

/-- C3: with `overlap ≥ size` and trimmed text longer than `size`, the source
loop of `_sliding_chunks` never terminates: no amount of fuel makes the model
return a value. The code performs no fail-fast validation of the
`overlap < size` precondition. -/
theorem sliding_chunks_no_fail_fast (text : List Char) (size overlap : Nat)
    (h1 : size ≤ overlap) (h2 : size < (stripChars text).length) :
    ∀ fuel : Nat, slidingChunksFuel fuel text size overlap = none := by
  have htext : text ≠ [] := by
    intro h
    rw [h] at h2
    simp [stripChars] at h2
  have hloop : ∀ (fuel : Nat) (acc : List (List Char)),
      slidingLoop (stripChars text) size overlap fuel 0 acc = none := by
    intro fuel
    induction fuel with
    | zero => intro acc; rfl
    | succ fuel ih =>
      intro acc
      have hz : (0 + size) - overlap = 0 := by omega
      simp only [slidingLoop, if_pos (by omega : 0 < (stripChars text).length)]
      rw [if_neg (by omega), hz]
      exact ih _
  intro fuel
  unfold slidingChunksFuel
  rw [if_neg htext, if_neg (by omega)]
  exact hloop fuel []

/-! ### Markdown fence stripping: src/agent/agent.py lines 263-272 -/

/-- The backtick character (U+0060), used by markdown code fences. -/
def fenceChar : Char := Char.ofNat 96

/-- The three-character code-fence marker. -/
def fence3 : List Char := [fenceChar, fenceChar, fenceChar]

/-- Python `s.startswith(pat)` on character lists: `startsWithChars pat s`. -/
def startsWithChars : List Char → List Char → Bool
  | [], _ => true
  | _ :: _, [] => false
  | p :: ps, c :: cs => p == c && startsWithChars ps cs

/-- Python `s.split(chr(10))`: split a character list at every newline. -/
def splitLines : List Char → List (List Char)
  | [] => [[]]
  | c :: cs =>
    if c = '\n' then [] :: splitLines cs
    else
      match splitLines cs with
      | [] => [[c]]
      | l :: ls => (c :: l) :: ls

/-- Python `"\n".join(lines)` on character-list lines. -/
def joinLines : List (List Char) → List Char
  | [] => []
  | [l] => l
  | l :: ls => l ++ '\n' :: joinLines ls

/-- Markdown stripping performed by `compare` on the ranking-service response
(agent.py lines 266-272): when the text starts with a code fence, drop the first
line if it starts with a fence and the last line if it trims to a bare fence,
then rejoin. -/
def stripMarkdown (txt : List Char) : List Char :=
  if startsWithChars fence3 txt then
    let lines0 := splitLines txt
    let lines1 :=
      match lines0 with
      | first :: rest => if startsWithChars fence3 first then rest else lines0
      | [] => lines0
    let lines2 :=
      if lines1 ≠ [] ∧ stripChars (lines1.getLastD []) = fence3 then lines1.dropLast
      else lines1
    joinLines lines2
  else txt

/-- Processing applied to the raw ranking-service response text before JSON
decoding (agent.py line 263 then 266-272): outer whitespace strip, then
markdown-fence strip. -/
def processResponse (content : List Char) : List Char :=
  stripMarkdown (stripChars content)

/-- The markdown code-fence wrapping of a response body, with an optional
language tag on the opening fence line. -/
def wrapFence (lang body : List Char) : List Char :=
  fence3 ++ lang ++ '\n' :: (body ++ '\n' :: fence3)

theorem splitLines_ne_nil (l : List Char) : splitLines l ≠ [] := by
  induction l with
  | nil => simp [splitLines]
  | cons c cs ih =>
    by_cases h : c = '\n'
    · simp [splitLines, h]
    · simp only [splitLines, if_neg h]
      cases hs : splitLines cs with
      | nil => simp
      | cons l ls => simp

theorem splitLines_append_newline (x y : List Char) :
    splitLines (x ++ '\n' :: y) = splitLines x ++ splitLines y := by
  induction x with
  | nil => simp [splitLines]
  | cons c cs ih =>
    by_cases h : c = '\n'
    · simp [splitLines, h, ih]
    · simp only [List.cons_append, splitLines, if_neg h, List.append_eq]
      rw [ih]
      cases hs : splitLines cs with
      | nil => exact absurd hs (splitLines_ne_nil cs)
      | cons l ls => simp

theorem splitLines_no_newline (x : List Char) (h : '\n' ∉ x) : splitLines x = [x] := by
  induction x with
  | nil => rfl
  | cons c cs ih =>
    have hc : c ≠ '\n' := fun hc => h (hc ▸ List.mem_cons_self c cs)
    have hcs : '\n' ∉ cs := fun hm => h (List.mem_cons_of_mem c hm)
    simp only [splitLines, if_neg hc, ih hcs]

theorem joinLines_splitLines (s : List Char) : joinLines (splitLines s) = s := by
  induction s with
  | nil => rfl
  | cons c cs ih =>
    by_cases h : c = '\n'
    · subst h
      simp only [splitLines, if_pos rfl]
      cases hs : splitLines cs with
      | nil => exact absurd hs (splitLines_ne_nil cs)
      | cons l ls =>
        rw [hs] at ih
        simp only [joinLines, List.nil_append]
        rw [ih]
    · simp only [splitLines, if_neg h]
      cases hs : splitLines cs with
      | nil => exact absurd hs (splitLines_ne_nil cs)
      | cons l ls =>
        rw [hs] at ih
        cases ls with
        | nil =>
          simp only [joinLines] at ih ⊢
          rw [ih]
        | cons l2 ls2 =>
          simp only [joinLines, List.cons_append] at ih ⊢
          rw [ih]

theorem startsWithChars_append (p r : List Char) : startsWithChars p (p ++ r) = true := by
  induction p with
  | nil => rfl
  | cons c cs ih => simp [startsWithChars, ih]

theorem stripChars_sandwich (c d : Char) (m : List Char)
    (hc : isPySpace c = false) (hd : isPySpace d = false) :
    stripChars (c :: m ++ [d]) = c :: m ++ [d] := by
  unfold stripChars
  have h1 : (c :: m ++ [d]).dropWhile isPySpace = c :: m ++ [d] := by
    simp [List.dropWhile_cons, hc]
  rw [h1]
  have h2 : (c :: m ++ [d]).reverse = d :: (m.reverse ++ [c]) := by
    simp
  rw [h2]
  have h3 : (d :: (m.reverse ++ [c])).dropWhile isPySpace = d :: (m.reverse ++ [c]) := by
    simp [List.dropWhile_cons, hd]
  rw [h3]
  simp

theorem stripChars_wrapFence (lang body : List Char) :
    stripChars (wrapFence lang body) = wrapFence lang body := by
  have hshape : wrapFence lang body =
      fenceChar :: ([fenceChar, fenceChar] ++ lang ++ '\n' :: (body ++ '\n' ::
        [fenceChar, fenceChar])) ++ [fenceChar] := by
    simp [wrapFence, fence3]
  rw [hshape]
  exact stripChars_sandwich fenceChar fenceChar _ (by decide) (by decide)

theorem stripMarkdown_wrapFence (lang body : List Char) (hlang : '\n' ∉ lang) :
    stripMarkdown (wrapFence lang body) = body := by
  have hstart : startsWithChars fence3 (wrapFence lang body) = true := by
    simp only [wrapFence, fence3, List.cons_append, List.nil_append]
    simp [startsWithChars]
  have hsplit : splitLines (wrapFence lang body) =
      (fence3 ++ lang) :: (splitLines body ++ [fence3]) := by
    have hshape : wrapFence lang body = (fence3 ++ lang) ++ '\n' :: (body ++ '\n' :: fence3) := by
      simp [wrapFence]
    rw [hshape, splitLines_append_newline, splitLines_append_newline]
    have h1 : splitLines (fence3 ++ lang) = [fence3 ++ lang] := by
      apply splitLines_no_newline
      intro hm
      rcases List.mem_append.mp hm with h | h
      · simp [fence3, fenceChar] at h
      · exact hlang h
    have h2 : splitLines fence3 = [fence3] := by
      apply splitLines_no_newline
      intro hm
      simp [fence3, fenceChar] at hm
    rw [h1, h2]
    simp
  unfold stripMarkdown
  rw [if_pos hstart, hsplit]
  dsimp only
  rw [startsWithChars_append]
  simp only [eq_self_iff_true, if_true]
  rw [if_pos ⟨by simp, by rw [List.getLastD_concat]; decide⟩]
  rw [List.dropLast_concat]
  exact joinLines_splitLines body

theorem processResponse_wrapFence (lang body : List Char) (hlang : '\n' ∉ lang) :
    processResponse (wrapFence lang body) = body := by
  unfold processResponse
  rw [stripChars_wrapFence, stripMarkdown_wrapFence lang body hlang]

theorem processResponse_plain (body : List Char) (hstrip : stripChars body = body)
    (hfence : startsWithChars fence3 body = false) :
    processResponse body = body := by
  unfold processResponse stripMarkdown
  rw [hstrip, if_neg (by simp [hfence])]

/-! ### Ranker agent: src/agent/agent.py

Nullable SQLite text fields are modelled as `String` with `""` standing for
NULL; this is truthiness-faithful, since the source only tests these fields for
Python truthiness (where both `None` and `""` are falsy) or coalesces them with
`or ""`. External collaborators are fields of `AgentEnv`; uncaught failures of a
collaborator call are its `Except.error` values. -/

/-- One metadata record returned by the vector query; `meta.get("source_id")`
may be absent (`none`). -/
structure Meta where
  source_id : Option String
deriving DecidableEq

/-- One row of the `Tickets` table as selected by `compare` (agent.py 136-149). -/
structure TicketRow where
  ticket_number : String
  status : String
  tier : String
  module : String
  category : String
  resolution : String
  kb_article_id : String
  script_id : String
  description : String
deriving DecidableEq, Inhabited

/-- The relational store visible to `compare`: `Tickets` keyed by ticket number
and `Scripts_Master` keyed by script id. -/
structure Db where
  tickets : List (String × TicketRow)
  scripts : List (String × String)
deriving DecidableEq

/-- A hydrated candidate dict (agent.py 168-179). -/
structure Candidate where
  ticket_number : String
  status : String
  tier : String
  module : String
  category : String
  resolution : String
  kb_article_id : String
  script_id : String
  script_text : String
  description : String
deriving DecidableEq, Inhabited

/-- One decoded entry of the ranking response's `rankings` list; each field may
be absent, matching the `.get(..., default)` accesses of agent.py 291-302. -/
structure RankingEntry where
  index : Option Int
  rank : Option Int
  rationale : Option String
deriving DecidableEq, Inhabited

/-- The decoded JSON object of the ranking response; `rankings` may be absent
(`decision.get("rankings", [])`, agent.py 279). -/
structure Decision where
  rankings : Option (List RankingEntry)
deriving DecidableEq, Inhabited

/-- One assembled ranked-result dict (agent.py 296-307). -/
structure RankedResult where
  rank : Int
  ticket_number : String
  kb_article_id : String
  script_id : String
  script_text : String
  rationale : String
  module : String
  category : String
  status : String
  tier : String
deriving DecidableEq, Inhabited

/-- The distinguished error kind raised by `compare` (agent.py 34-36). -/
structure AgentError where
  msg : String
deriving DecidableEq

/-- External calls issued by `compare`, in order: the embedding/similarity
query, one relational lookup per retrieved ticket id, and the ranking-service
call. -/
inductive Call where
  | chromaQuery : Call
  | dbQuery : String → Call
  | llmCall : Call
deriving DecidableEq

/-- The dict returned by `compare`. A `none` in `winner` / `candidates` /
`ranked_results` means the corresponding KEY IS ABSENT from the returned dict;
`some` means the key is present with the given value (agent.py returns dicts of
three different shapes at lines 117-123, 185-190, 281-286 and 312-316). -/
structure CompareOutput where
  winner : Option (Option String) := none
  candidates : Option (List Candidate) := none
  ranked_results : Option (List RankedResult) := none
  question : String
  no_match : Bool
deriving DecidableEq

/-- Environment of one `compare` call: paths, collaborator behaviours and the
optional orchestration hooks (agent.py 40-41). -/
structure AgentEnv where
  chromaPath : String
  chromaExists : Bool
  queryResult : Except String (List Meta)
  dbPath : String
  dbExists : Bool
  db : Except String Db
  apiKey : Option String
  clientInit : Except String Unit
  llmResult : Except String (List Char)
  parse : List Char → Except String Decision
  incomingHook : Option (String → String)
  outgoingHook : Option (CompareOutput → CompareOutput)

/-- Extraction of ticket numbers from query metadata (agent.py 110-115): keep
each truthy `source_id` the first time it is seen, preserving order. -/
def extractTicketNumbers (metas : List Meta) : List String :=
  metas.foldl
    (fun acc m =>
      match m.source_id with
      | some tn => if tn ≠ "" ∧ tn ∉ acc then acc ++ [tn] else acc
      | none => acc)
    []

/-- Script-text lookup for a candidate (agent.py 156-166): empty unless the
script row exists and its sanitized text is truthy. -/
def fetchScriptText (db : Db) (sid : String) : String :=
  match db.scripts.lookup sid with
  | some t => if t ≠ "" then t else ""
  | none => ""

/-- Hydration of a single ticket id from the relational store (agent.py
134-179): `none` when the ticket row no longer exists. -/
def hydrateOne (db : Db) (tn : String) : Option Candidate :=
  match db.tickets.lookup tn with
  | none => none
  | some row =>
    some
      { ticket_number := row.ticket_number
        status := row.status
        tier := row.tier
        module := row.module
        category := row.category
        resolution := row.resolution
        kb_article_id := row.kb_article_id
        script_id := row.script_id
        script_text := if row.script_id ≠ "" then fetchScriptText db row.script_id else ""
        description := row.description }

/-- Hydration of all retrieved ticket ids in order; missing rows are silently
dropped. -/
def hydrateAll (db : Db) (tns : List String) : List Candidate :=
  tns.filterMap (hydrateOne db)

/-- Credential check of agent.py 193-194: missing when unset or blank after
strip. -/
def apiKeyMissing : Option String → Bool
  | none => true
  | some k => stripStr k == ""

/-- Join of one in-range ranking entry with its candidate's full fields
(agent.py 296-307). -/
def mkRankedResult (r : RankingEntry) (c : Candidate) : RankedResult :=
  { rank := r.rank.getD 0
    ticket_number := c.ticket_number
    kb_article_id := c.kb_article_id
    script_id := c.script_id
    script_text := c.script_text
    rationale := r.rationale.getD ""
    module := c.module
    category := c.category
    status := c.status
    tier := c.tier }

/-- The assembly loop of agent.py 289-307: entries whose index is outside
`[0, len(candidates))` are skipped; the others are joined with their candidate. -/
def buildRankedResults : List RankingEntry → List Candidate → List RankedResult
  | [], _ => []
  | r :: rs, cs =>
    let idx : Int := r.index.getD (-1)
    if h : 0 ≤ idx ∧ idx < (cs.length : Int) then
      mkRankedResult r (cs.get ⟨idx.toNat, by omega⟩) :: buildRankedResults rs cs
    else
      buildRankedResults rs cs

/-- The final stable sort by rank (agent.py 310). -/
def sortByRank (l : List RankedResult) : List RankedResult :=
  l.mergeSort fun a b => decide (a.rank ≤ b.rank)

/-- The question after the optional incoming hook (agent.py 83-85). -/
def hookQuestion (env : AgentEnv) (q0 : String) : String :=
  match env.incomingHook with
  | some h => h q0
  | none => q0

/-- Shallow embedding of `compare` (agent.py 44-322). The first component is
the returned dict or the raised `AgentError`; the second lists the external
calls issued, so that absence of a ranking-service call is expressible. -/
def compare (env : AgentEnv) (q0 : String) : Except AgentError CompareOutput × List Call :=
  let question := hookQuestion env q0
  if env.chromaExists then
    match env.queryResult with
    | .error e => (.error ⟨"Embedding query failed: " ++ e⟩, [Call.chromaQuery])
    | .ok metas =>
      let ticket_numbers := extractTicketNumbers metas
      if ticket_numbers = [] then
        (.ok { winner := some none, candidates := some [], question := question,
               no_match := true },
          [Call.chromaQuery])
      else if env.dbExists then
        match env.db with
        | .error e => (.error ⟨"Database query failed: " ++ e⟩, [Call.chromaQuery])
        | .ok db =>
          let calls := Call.chromaQuery :: ticket_numbers.map Call.dbQuery
          let candidates := hydrateAll db ticket_numbers
          if candidates = [] then
            (.ok { ranked_results := some [], question := question, no_match := true }, calls)
          else if apiKeyMissing env.apiKey then
            (.error ⟨"OPENAI_API_KEY not set in .env"⟩, calls)
          else
            match env.clientInit with
            | .error e => (.error ⟨"OpenAI client init failed: " ++ e⟩, calls)
            | .ok _ =>
              match env.llmResult with
              | .error e => (.error ⟨"OpenAI API call failed: " ++ e⟩, calls ++ [Call.llmCall])
              | .ok content =>
                match env.parse (processResponse content) with
                | .error e =>
                  (.error ⟨"OpenAI returned invalid JSON: " ++ e⟩, calls ++ [Call.llmCall])
                | .ok decision =>
                  let rankings := decision.rankings.getD []
                  if rankings = [] then
                    (.ok { ranked_results := some [], question := question, no_match := true },
                      calls ++ [Call.llmCall])
                  else
                    let ranked := sortByRank (buildRankedResults rankings candidates)
                    let result : CompareOutput :=
                      { ranked_results := some ranked, question := question, no_match := false }
                    let result :=
                      match env.outgoingHook with
                      | some h => h result
                      | none => result
                    (.ok result, calls ++ [Call.llmCall])
      else (.error ⟨"DB not found: " ++ env.dbPath⟩, [Call.chromaQuery])
  else (.error ⟨"Chroma index not found: " ++ env.chromaPath⟩, [])

/-! ### Deduplication of retrieved ticket ids (claims C1, C5) -/

/-- Reference first-occurrence deduplication: keep each element the first time
it appears, in order. -/
def firstOccurrenceDedup : List String → List String
  | [] => []
  | x :: xs => x :: firstOccurrenceDedup (xs.filter fun y => decide (y ≠ x))
termination_by l => l.length
decreasing_by
  have := List.length_filter_le (fun y => decide (y ≠ x)) xs
  simp only [List.length_cons]
  omega

/-- Python truthiness of `meta.get("source_id")`: the id when present and
non-empty, otherwise nothing. -/
def truthyId (m : Meta) : Option String :=
  match m.source_id with
  | some tn => if tn = "" then none else some tn
  | none => none

theorem filter_notmem_append (l acc : List String) (tn : String) :
    l.filter (fun x => decide (x ∉ acc ++ [tn])) =
      (l.filter fun x => decide (x ∉ acc)).filter fun y => decide (y ≠ tn) := by
  rw [List.filter_filter]
  apply List.filter_congr
  intro x _
  simp [List.mem_append, not_or, and_comm]

theorem extract_go (metas : List Meta) :
    ∀ acc : List String,
      metas.foldl
        (fun acc m =>
          match m.source_id with
          | some tn => if tn ≠ "" ∧ tn ∉ acc then acc ++ [tn] else acc
          | none => acc)
        acc =
      acc ++ firstOccurrenceDedup
        ((metas.filterMap truthyId).filter fun x => decide (x ∉ acc)) := by
  induction metas with
  | nil => intro acc; simp [firstOccurrenceDedup]
  | cons m ms ih =>
    intro acc
    cases hsid : m.source_id with
    | none =>
      simp only [List.foldl_cons, hsid]
      rw [ih, List.filterMap_cons]
      simp [truthyId, hsid]
    | some tn =>
      by_cases htn : tn = ""
      · subst htn
        simp only [List.foldl_cons, hsid]
        rw [if_neg (by simp), ih, List.filterMap_cons]
        simp [truthyId, hsid]
      · by_cases hmem : tn ∈ acc
        · simp only [List.foldl_cons, hsid]
          rw [if_neg (by simp [hmem]), ih, List.filterMap_cons]
          simp only [truthyId, hsid, if_neg htn]
          rw [List.filter_cons_of_neg (by simp [hmem])]
        · simp only [List.foldl_cons, hsid]
          rw [if_pos ⟨htn, hmem⟩, ih, List.filterMap_cons]
          simp only [truthyId, hsid, if_neg htn]
          rw [List.filter_cons_of_pos (by simp [hmem])]
          rw [firstOccurrenceDedup]
          rw [filter_notmem_append]
          simp

theorem extract_eq (metas : List Meta) :
    extractTicketNumbers metas = firstOccurrenceDedup (metas.filterMap truthyId) := by
  unfold extractTicketNumbers
  rw [extract_go]
  simp

theorem mem_firstOccurrenceDedup {y : String} :
    ∀ {l : List String}, y ∈ firstOccurrenceDedup l → y ∈ l := by
  intro l
  induction l using firstOccurrenceDedup.induct with
  | case1 => simp [firstOccurrenceDedup]
  | case2 x xs ih =>
    rw [firstOccurrenceDedup]
    intro h
    rcases List.mem_cons.mp h with h | h
    · exact h ▸ List.mem_cons_self x _
    · exact List.mem_cons_of_mem x (List.mem_of_mem_filter (ih h))

theorem firstOccurrenceDedup_nodup : ∀ l : List String, (firstOccurrenceDedup l).Nodup := by
  intro l
  induction l using firstOccurrenceDedup.induct with
  | case1 => simp [firstOccurrenceDedup]
  | case2 x xs ih =>
    rw [firstOccurrenceDedup]
    refine List.nodup_cons.mpr ⟨?_, ih⟩
    intro hx
    have hm := mem_firstOccurrenceDedup hx
    have := List.of_mem_filter hm
    simp at this

/-- A sample `Tickets` row. -/
def rowT1 : TicketRow :=
  { ticket_number := "T1", status := "Closed", tier := "1", module := "Auth",
    category := "Login", resolution := "reset credentials", kb_article_id := "KB1",
    script_id := "", description := "cannot log in" }

/-- A second sample `Tickets` row. -/
def rowT2 : TicketRow :=
  { ticket_number := "T2", status := "Open", tier := "2", module := "VPN",
    category := "Network", resolution := "reconnect", kb_article_id := "",
    script_id := "S2", description := "vpn drops" }

/-- Environment whose vector query returns ticket chunks `T1, T2, T1` (nearest
first) and whose store holds both tickets; the credential is unset so the run
stops right after hydration. -/
def envDedup : AgentEnv :=
  { chromaPath := "data/chroma"
    chromaExists := true
    queryResult := .ok [⟨some "T1"⟩, ⟨some "T2"⟩, ⟨some "T1"⟩]
    dbPath := "data/supportmind.db"
    dbExists := true
    db := .ok ⟨[("T1", rowT1), ("T2", rowT2)], [("S2", "Restart-VpnService")]⟩
    apiKey := none
    clientInit := .ok ()
    llmResult := .error "unused"
    parse := fun _ => .error "unused"
    incomingHook := none
    outgoingHook := none }

/-- C5: the Ranker deduplicates retrieved ticket ids by `source_id` while
preserving nearest-first order — extraction equals first-occurrence
deduplication of the truthy ids, has no duplicates, and on the example
`[("T1",0.1), ("T2",0.2), ("T1",0.3)]` hydration issues exactly one relational
lookup for `T1` then one for `T2`. -/
theorem ranker_dedup_first_occurrence :
    (∀ metas : List Meta,
      extractTicketNumbers metas = firstOccurrenceDedup (metas.filterMap truthyId) ∧
      (extractTicketNumbers metas).Nodup) ∧
    extractTicketNumbers [⟨some "T1"⟩, ⟨some "T2"⟩, ⟨some "T1"⟩] = ["T1", "T2"] ∧
    (compare envDedup "vpn fails").2 =
      [Call.chromaQuery, Call.dbQuery "T1", Call.dbQuery "T2"] := by
  refine ⟨fun metas => ⟨extract_eq metas, ?_⟩, by decide, rfl⟩
  rw [extract_eq]
  exact firstOccurrenceDedup_nodup _

/-- Environment whose vector query returns metadata with no truthy ticket id. -/
def envNoTickets : AgentEnv :=
  { chromaPath := "data/chroma"
    chromaExists := true
    queryResult := .ok [⟨none⟩, ⟨some ""⟩]
    dbPath := "data/supportmind.db"
    dbExists := true
    db := .ok ⟨[], []⟩
    apiKey := some "sk-test"
    clientInit := .ok ()
    llmResult := .ok []
    parse := fun _ => .error "unused"
    incomingHook := none
    outgoingHook := none }

/-- C1 exhibit: when no ticket ids are retrieved, `compare` returns with
`no_match = true` and without issuing a ranking-service call, but the returned
dict is `{"winner": None, "candidates": [], "question": ..., "no_match": True}`:
it has NO `ranked_results` key (modelled as `ranked_results = none`),
contradicting both the claim and the function's own docstring. -/
theorem compare_empty_retrieval_shape :
    compare envNoTickets "printer jam" =
      (.ok { winner := some none, candidates := some [], ranked_results := none,
             question := "printer jam", no_match := true }, [Call.chromaQuery]) ∧
    Call.llmCall ∉ (compare envNoTickets "printer jam").2 := by
  refine ⟨rfl, ?_⟩
  rw [show (compare envNoTickets "printer jam").2 = [Call.chromaQuery] from rfl]
  decide

/-! ### Assembly of ranked results (claim C6) -/

/-- A sample hydrated candidate. -/
def candA : Candidate :=
  { ticket_number := "T10", status := "Closed", tier := "1", module := "Email",
    category := "Outlook", resolution := "rebuilt profile", kb_article_id := "KB10",
    script_id := "S10", script_text := "Fix-Mailbox", description := "mail stuck" }

/-- A second sample hydrated candidate. -/
def candB : Candidate :=
  { ticket_number := "T11", status := "Open", tier := "2", module := "VPN",
    category := "Network", resolution := "restart adapter", kb_article_id := "KB11",
    script_id := "", script_text := "", description := "no network" }

section AssembleExample

attribute [local semireducible] List.mergeSort List.merge

/-- C6: assembly keeps exactly the in-range ranking entries, joins each to its
candidate's full fields, and returns them sorted ascending by rank — and on the
two-candidate example with service-provided order `[{index 1, rank 1},
{index 0, rank 2}]`, candidate 1 comes first at rank 1 and candidate 0 second
at rank 2, each with its own KB/script fields. -/
theorem assemble_drop_join_sort :
    (∀ (rankings : List RankingEntry) (cs : List Candidate),
      buildRankedResults rankings cs =
        (rankings.filter fun r =>
            decide (0 ≤ r.index.getD (-1) ∧ r.index.getD (-1) < (cs.length : Int))).map
          fun r => mkRankedResult r (cs.getD (r.index.getD (-1)).toNat default)) ∧
    (∀ (rankings : List RankingEntry) (cs : List Candidate),
      List.Pairwise (fun a b : RankedResult => a.rank ≤ b.rank)
        (sortByRank (buildRankedResults rankings cs)) ∧
      (sortByRank (buildRankedResults rankings cs)).Perm (buildRankedResults rankings cs)) ∧
    sortByRank (buildRankedResults
        [⟨some 1, some 1, some "best fit"⟩, ⟨some 0, some 2, some "partial fit"⟩]
        [candA, candB]) =
      [{ rank := 1, ticket_number := "T11", kb_article_id := "KB11", script_id := "",
         script_text := "", rationale := "best fit", module := "VPN", category := "Network",
         status := "Open", tier := "2" },
       { rank := 2, ticket_number := "T10", kb_article_id := "KB10", script_id := "S10",
         script_text := "Fix-Mailbox", rationale := "partial fit", module := "Email",
         category := "Outlook", status := "Closed", tier := "1" }] := by
  refine ⟨?_, ?_, by decide⟩
  · intro rankings cs
    induction rankings with
    | nil => rfl
    | cons r rs ih =>
      simp only [buildRankedResults]
      by_cases h : 0 ≤ r.index.getD (-1) ∧ r.index.getD (-1) < (cs.length : Int)
      · rw [dif_pos h, List.filter_cons_of_pos (by simpa using h), List.map_cons, ih]
        congr 1
        have hb : (r.index.getD (-1)).toNat < cs.length := by omega
        rw [List.getD_eq_getElem cs default hb]
        rfl
      · rw [dif_neg h, List.filter_cons_of_neg (by simpa using h), ih]
  · intro rankings cs
    constructor
    · have htrans : ∀ a b c : RankedResult,
          (fun a b : RankedResult => decide (a.rank ≤ b.rank)) a b = true →
          (fun a b : RankedResult => decide (a.rank ≤ b.rank)) b c = true →
          (fun a b : RankedResult => decide (a.rank ≤ b.rank)) a c = true := by
        intro a b c hab hbc
        simp only [decide_eq_true_iff] at *
        omega
      have htotal : ∀ a b : RankedResult,
          ((fun a b : RankedResult => decide (a.rank ≤ b.rank)) a b ||
           (fun a b : RankedResult => decide (a.rank ≤ b.rank)) b a) = true := by
        intro a b
        simp only [Bool.or_eq_true, decide_eq_true_iff]
        omega
      have hp := List.sorted_mergeSort htrans htotal (buildRankedResults rankings cs)
      unfold sortByRank
      exact hp.imp fun h => of_decide_eq_true h
    · exact List.mergeSort_perm _ _

end AssembleExample

/-! ### Markdown-fence transparency of the response path (claim C8) -/

/-- C8: a ranking-service response wrapped in a markdown code fence (opening
fence line, possibly with a language tag, and closing fence line) is processed
to exactly the same decoded rankings — and hence the same final result of
`compare` — as the unwrapped JSON body. -/
theorem fence_wrapped_response_equiv (env : AgentEnv) (q : String) (lang body : List Char)
    (hlang : '\n' ∉ lang) (hstrip : stripChars body = body)
    (hfence : startsWithChars fence3 body = false) :
    compare { env with llmResult := .ok (wrapFence lang body) } q =
      compare { env with llmResult := .ok body } q := by
  have hpr : processResponse (wrapFence lang body) = processResponse body := by
    rw [processResponse_wrapFence lang body hlang, processResponse_plain body hstrip hfence]
  obtain ⟨cp, ce, qr, dp, de, db, ak, ci, lr, pf, ihk, ohk⟩ := env
  simp only [compare, hookQuestion]
  rw [hpr]

/-! ### Single error kind and non-error no-match (claim C9) -/

/-- C9: every failure point of `compare` — index path missing, embedding/query
failure, relational-store missing or failing, missing or blank credential,
client-init failure, ranking-service call failure, undecodable ranking response
— surfaces as the single error kind `AgentError` with a descriptive message
(the result type admits no other error kind), while each no-match outcome is a
normal return with `no_match = true`, never an error. -/
theorem agent_error_single_kind :
    (∀ (env : AgentEnv) (q : String), env.chromaExists = false →
      (compare env q).1 = .error ⟨"Chroma index not found: " ++ env.chromaPath⟩) ∧
    (∀ (env : AgentEnv) (q : String) (e : String),
      env.chromaExists = true → env.queryResult = .error e →
      (compare env q).1 = .error ⟨"Embedding query failed: " ++ e⟩) ∧
    (∀ (env : AgentEnv) (q : String) (metas : List Meta),
      env.chromaExists = true → env.queryResult = .ok metas →
      extractTicketNumbers metas ≠ [] → env.dbExists = false →
      (compare env q).1 = .error ⟨"DB not found: " ++ env.dbPath⟩) ∧
    (∀ (env : AgentEnv) (q : String) (metas : List Meta) (e : String),
      env.chromaExists = true → env.queryResult = .ok metas →
      extractTicketNumbers metas ≠ [] → env.dbExists = true → env.db = .error e →
      (compare env q).1 = .error ⟨"Database query failed: " ++ e⟩) ∧
    (∀ (env : AgentEnv) (q : String) (metas : List Meta) (db : Db),
      env.chromaExists = true → env.queryResult = .ok metas →
      extractTicketNumbers metas ≠ [] → env.dbExists = true → env.db = .ok db →
      hydrateAll db (extractTicketNumbers metas) ≠ [] → apiKeyMissing env.apiKey = true →
      (compare env q).1 = .error ⟨"OPENAI_API_KEY not set in .env"⟩) ∧
    (∀ (env : AgentEnv) (q : String) (metas : List Meta) (db : Db) (e : String),
      env.chromaExists = true → env.queryResult = .ok metas →
      extractTicketNumbers metas ≠ [] → env.dbExists = true → env.db = .ok db →
      hydrateAll db (extractTicketNumbers metas) ≠ [] → apiKeyMissing env.apiKey = false →
      env.clientInit = .error e →
      (compare env q).1 = .error ⟨"OpenAI client init failed: " ++ e⟩) ∧
    (∀ (env : AgentEnv) (q : String) (metas : List Meta) (db : Db) (e : String),
      env.chromaExists = true → env.queryResult = .ok metas →
      extractTicketNumbers metas ≠ [] → env.dbExists = true → env.db = .ok db →
      hydrateAll db (extractTicketNumbers metas) ≠ [] → apiKeyMissing env.apiKey = false →
      env.clientInit = .ok () → env.llmResult = .error e →
      (compare env q).1 = .error ⟨"OpenAI API call failed: " ++ e⟩) ∧
    (∀ (env : AgentEnv) (q : String) (metas : List Meta) (db : Db)
        (content : List Char) (e : String),
      env.chromaExists = true → env.queryResult = .ok metas →
      extractTicketNumbers metas ≠ [] → env.dbExists = true → env.db = .ok db →
      hydrateAll db (extractTicketNumbers metas) ≠ [] → apiKeyMissing env.apiKey = false →
      env.clientInit = .ok () → env.llmResult = .ok content →
      env.parse (processResponse content) = .error e →
      (compare env q).1 = .error ⟨"OpenAI returned invalid JSON: " ++ e⟩) ∧
    (∀ (env : AgentEnv) (q : String) (metas : List Meta),
      env.chromaExists = true → env.queryResult = .ok metas →
      extractTicketNumbers metas = [] →
      (compare env q).1 =
        .ok { winner := some none, candidates := some [], question := hookQuestion env q,
              no_match := true }) ∧
    (∀ (env : AgentEnv) (q : String) (metas : List Meta) (db : Db),
      env.chromaExists = true → env.queryResult = .ok metas →
      extractTicketNumbers metas ≠ [] → env.dbExists = true → env.db = .ok db →
      hydrateAll db (extractTicketNumbers metas) = [] →
      (compare env q).1 =
        .ok { ranked_results := some [], question := hookQuestion env q,
              no_match := true }) ∧
    (∀ (env : AgentEnv) (q : String) (metas : List Meta) (db : Db)
        (content : List Char) (d : Decision),
      env.chromaExists = true → env.queryResult = .ok metas →
      extractTicketNumbers metas ≠ [] → env.dbExists = true → env.db = .ok db →
      hydrateAll db (extractTicketNumbers metas) ≠ [] → apiKeyMissing env.apiKey = false →
      env.clientInit = .ok () → env.llmResult = .ok content →
      env.parse (processResponse content) = .ok d → d.rankings.getD [] = [] →
      (compare env q).1 =
        .ok { ranked_results := some [], question := hookQuestion env q,
              no_match := true }) := by
  refine ⟨?_, ?_, ?_, ?_, ?_, ?_, ?_, ?_, ?_, ?_, ?_⟩
  · intro env q h1
    simp [compare, h1]
  · intro env q e h1 h2
    simp [compare, h1, h2]
  · intro env q metas h1 h2 h3 h4
    simp [compare, h1, h2, h3, h4]
  · intro env q metas e h1 h2 h3 h4 h5
    simp [compare, h1, h2, h3, h4, h5]
  · intro env q metas db h1 h2 h3 h4 h5 h6 h7
    simp [compare, h1, h2, h3, h4, h5, h6, h7]
  · intro env q metas db e h1 h2 h3 h4 h5 h6 h7 h8
    simp [compare, h1, h2, h3, h4, h5, h6, h7, h8]
  · intro env q metas db e h1 h2 h3 h4 h5 h6 h7 h8 h9
    simp [compare, h1, h2, h3, h4, h5, h6, h7, h8, h9]
  · intro env q metas db content e h1 h2 h3 h4 h5 h6 h7 h8 h9 h10
    simp [compare, h1, h2, h3, h4, h5, h6, h7, h8, h9, h10]
  · intro env q metas h1 h2 h3
    simp [compare, h1, h2, h3]
  · intro env q metas db h1 h2 h3 h4 h5 h6
    simp [compare, h1, h2, h3, h4, h5, h6]
  · intro env q metas db content d h1 h2 h3 h4 h5 h6 h7 h8 h9 h10 h11
    simp [compare, h1, h2, h3, h4, h5, h6, h7, h8, h9, h10, h11]

/-! ### Retriever: src/retrieval/query.py (claim C4) -/

/-- One stored chunk of the vector collection, in similarity order for the
current query text (nearest first); `distance` is the reported similarity
distance. -/
structure QueryEntry where
  document : List Char
  source_type : String
  source_id : String
  chunk_index : Nat
  distance : Rat
deriving DecidableEq

/-- One dict of the list returned by `query_chroma` (query.py 49-55). -/
structure QueryHit where
  text : List Char
  source_type : String
  source_id : String
  chunk_index : Nat
  distance : Option Rat
deriving DecidableEq

/-- Environment of one `query_chroma` call: whether the Chroma path exists,
whether the named collection has been created inside it, and the collection's
entries ranked for the query text (so the collection count is `ranked.length`).
The split between `pathExists` and `collectionPresent` matters: query.py only
guards the former (lines 28-29), while `client.get_collection` (line 33) raises
uncaught when the path exists but the collection was never created. -/
structure QueryEnv where
  pathExists : Bool
  collectionPresent : Bool
  ranked : List QueryEntry
deriving DecidableEq

/-- Shallow embedding of `query_chroma` (query.py 15-56): a missing index path
gives `[]` (lines 28-29); with the path present, `get_collection` (line 33) is
called WITHOUT a try/except, so when the collection of the configured name
(`"supportmind"`, the module's fixed `COLLECTION_NAME`) is absent its error
propagates uncaught to the caller — modelled as the `Except.error` outcome.
Otherwise the request is clamped to `min k count` and the parallel result
arrays are folded into hit dicts; backend faults outside the store state (e.g.
I/O) are not part of this state model. -/
def query_chroma (queryText : String) (env : QueryEnv) (k : Nat) :
    Except String (List QueryHit) :=
  if env.pathExists then
    if env.collectionPresent then
      let n := min k env.ranked.length
      .ok ((env.ranked.take n).map fun e =>
        { text := e.document, source_type := e.source_type, source_id := e.source_id,
          chunk_index := e.chunk_index, distance := some e.distance })
    else .error "Collection supportmind does not exist"
  else .ok []

/-- C4 counterexample: the retrieval query CAN raise. With the chroma path
present but the collection never created — an "index not built" state the claim
says yields an empty sequence rather than an error — `get_collection`'s error
propagates uncaught out of `query_chroma`. -/
theorem query_chroma_collection_absent_raises :
    query_chroma "anything" { pathExists := true, collectionPresent := false, ranked := [] } 5 =
      .error "Collection supportmind does not exist" := rfl

/-- C4 (amended): whenever the retrieval query returns successfully, the
request was clamped and at most `collection_size` results come back; a missing
index path and an existing-but-empty collection both yield the empty sequence
without error; but when the path exists and the named collection is absent, the
uncaught `get_collection` error surfaces instead of an empty result. -/
theorem query_chroma_clamped_guarded :
    (∀ (q : String) (env : QueryEnv) (k : Nat) (hits : List QueryHit),
      query_chroma q env k = .ok hits →
      hits.length ≤ env.ranked.length ∧ hits.length ≤ k) ∧
    (∀ (q : String) (env : QueryEnv) (k : Nat), env.pathExists = false →
      query_chroma q env k = .ok []) ∧
    (∀ (q : String) (env : QueryEnv) (k : Nat),
      env.collectionPresent = true → env.ranked = [] →
      query_chroma q env k = .ok []) ∧
    (∀ (q : String) (env : QueryEnv) (k : Nat),
      env.pathExists = true → env.collectionPresent = false →
      query_chroma q env k = .error "Collection supportmind does not exist") := by
  refine ⟨?_, ?_, ?_, ?_⟩
  · intro q env k hits hok
    unfold query_chroma at hok
    by_cases hp : env.pathExists
    · by_cases hc : env.collectionPresent
      · rw [if_pos hp, if_pos hc] at hok
        have hlen : hits = (env.ranked.take (min k env.ranked.length)).map fun e =>
            ({ text := e.document, source_type := e.source_type, source_id := e.source_id,
               chunk_index := e.chunk_index, distance := some e.distance } : QueryHit) := by
          exact (Except.ok.injEq _ _).mp hok.symm
        rw [hlen]
        simp [List.length_take]
      · rw [if_pos hp, if_neg hc] at hok
        exact absurd hok (by simp)
    · rw [if_neg hp] at hok
      have : hits = [] := by
        have := (Except.ok.injEq _ _).mp hok.symm
        exact this
      simp [this]
  · intro q env k h
    simp [query_chroma, h]
  · intro q env k hc hr
    unfold query_chroma
    by_cases hp : env.pathExists
    · simp [hp, hc, hr]
    · simp [hp]
  · intro q env k hp hc
    simp [query_chroma, hp, hc]

/-! ### Per-record chunk extraction and index entries:
src/retrieval/chunking.py and src/retrieval/build_index.py (claims C7, C10) -/

/-- The `Chunk` dataclass of chunking.py 20-27. -/
structure Chunk where
  text : List Char
  source_type : String
  source_id : String
  chunk_index : Nat
deriving DecidableEq

/-- One record written to the vector collection by the index builder:
identifier, document and metadata (build_index.py 83-90). -/
structure IndexEntry where
  id : String
  document : List Char
  source_type : String
  source_id : String
  chunk_index : Nat
deriving DecidableEq

/-- Identifier/document/metadata derivation of the full build
(build_index.py 83-90): the id is `f"{source_type}_{source_id}_{chunk_index}"`. -/
def chunkEntry (c : Chunk) : IndexEntry :=
  { id := c.source_type ++ "_" ++ c.source_id ++ "_" ++ toString c.chunk_index,
    document := c.text, source_type := c.source_type, source_id := c.source_id,
    chunk_index := c.chunk_index }

/-- One row of `Knowledge_Articles` as read by the build. -/
structure KbRow where
  kb_article_id : String
  title : String
  body : String
deriving DecidableEq

/-- One row of `Tickets` as read by the build. -/
structure TicketSrcRow where
  ticket_number : String
  description : String
  resolution : String
deriving DecidableEq

/-- One row of `Scripts_Master` as read by the build. -/
structure ScriptRow where
  script_id : String
  script_text_sanitized : String
deriving DecidableEq

/-- The combined KB text `f"Title: {title}\n\n{body}".strip() if title else
body` (chunking.py 105), applied to already-trimmed title and body. -/
def kbCombined (title body : List Char) : List Char :=
  if title ≠ [] then stripChars (("Title: ".data ++ title) ++ '\n' :: '\n' :: body)
  else body

/-- Chunks produced from one KB row by `chunks_from_kb` (chunking.py 92-109):
rows with a blank id are skipped; otherwise the combined title/body text is
split and enumerated. -/
def chunksFromKbRow (row : KbRow) (size overlap : Nat) : Option (List Chunk) :=
  let kb_id := stripStr row.kb_article_id
  if kb_id = "" then some []
  else
    let title := stripChars row.title.data
    let body := stripChars row.body.data
    let combined := kbCombined title body
    if combined = [] then some []
    else
      (slidingChunks combined size overlap).map fun parts =>
        parts.enum.map fun p =>
          { text := p.2, source_type := "kb", source_id := kb_id, chunk_index := p.1 }

/-- Chunks produced from one ticket row by `chunks_from_tickets`
(chunking.py 54-71). -/
def chunksFromTicketRow (row : TicketSrcRow) (size overlap : Nat) : Option (List Chunk) :=
  let tid := stripStr row.ticket_number
  if tid = "" then some []
  else
    let desc := stripChars row.description.data
    let res := stripChars row.resolution.data
    let combined :=
      stripChars (("Description: ".data ++ desc) ++ '\n' :: '\n' :: ("Resolution: ".data ++ res))
    if combined = [] then some []
    else
      (slidingChunks combined size overlap).map fun parts =>
        parts.enum.map fun p =>
          { text := p.2, source_type := "ticket", source_id := tid, chunk_index := p.1 }

/-- Chunks produced from one script row by `chunks_from_scripts`
(chunking.py 74-89). -/
def chunksFromScriptRow (row : ScriptRow) (size overlap : Nat) : Option (List Chunk) :=
  let sid := stripStr row.script_id
  if sid = "" then some []
  else
    let body := stripChars row.script_text_sanitized.data
    if body = [] then some []
    else
      (slidingChunks body size overlap).map fun parts =>
        parts.enum.map fun p =>
          { text := p.2, source_type := "script", source_id := sid, chunk_index := p.1 }

/-- The index entries the full build produces for one KB row: chunking followed
by the id/document/metadata derivation of build_index.py 83-90. -/
def buildKbEntries (row : KbRow) (size overlap : Nat) : Option (List IndexEntry) :=
  (chunksFromKbRow row size overlap).map (List.map chunkEntry)

/-- The index entries `add_kb_article_to_index` produces
(build_index.py 108-157): same combining and splitting, but the raw
`kb_article_id` argument is used unchecked and unstripped, and the id template
is `f"kb_{chunk.source_id}_{chunk.chunk_index}"`. -/
def addKbArticleEntries (kb_article_id title body : String) (size overlap : Nat) :
    Option (List IndexEntry) :=
  let t := stripChars title.data
  let b := stripChars body.data
  let combined := kbCombined t b
  if combined = [] then some []
  else
    (slidingChunks combined size overlap).map fun parts =>
      parts.enum.map fun p =>
        { id := "kb_" ++ kb_article_id ++ "_" ++ toString p.1,
          document := p.2, source_type := "kb", source_id := kb_article_id,
          chunk_index := p.1 }

/-- C7 (amended): for a KB article whose id is non-empty AND equal to its
trimmed form, the incremental add produces exactly the chunk identifiers,
documents and metadata of the full build on the identical row. (The unamended
claim fails: the build strips the row's id with `_safe_str` while the
incremental add uses its argument raw — see the counterexample.) -/
theorem kb_incremental_matches_build (kb_id title body : String) (size overlap : Nat)
    (h1 : stripStr kb_id = kb_id) (h2 : kb_id ≠ "") :
    addKbArticleEntries kb_id title body size overlap =
      buildKbEntries ⟨kb_id, title, body⟩ size overlap := by
  unfold addKbArticleEntries buildKbEntries chunksFromKbRow
  simp only [h1, if_neg h2]
  by_cases hc : kbCombined (stripChars title.data) (stripChars body.data) = []
  · simp [hc]
  · rw [if_neg hc, if_neg hc, Option.map_map]
    congr 1
    funext parts
    simp only [Function.comp_apply, List.map_map]
    rfl

/-- C7 counterexample: for the article id `" K1"` (non-empty, but carrying a
leading space) the incremental add and the full build derive different chunk
identifiers (`"kb_ K1_0"` versus `"kb_K1_0"`) and metadata, so repeated
publish+rebuild cycles would duplicate/orphan this article's chunks. -/
theorem kb_incremental_mismatch :
    addKbArticleEntries " K1" "T" "" 600 100 ≠ buildKbEntries ⟨" K1", "T", ""⟩ 600 100 := by
  decide

/-! ### Full index build: src/retrieval/build_index.py (claim C10) -/

/-- The vector store: named collections with their written entries. -/
abbrev ChromaState := List (String × List IndexEntry)

/-- Model of `client.delete_collection(name)` under the source's
`try/except: pass` (build_index.py 64-67): remove the named collection, no
error when absent. -/
def deleteCollection (st : ChromaState) (name : String) : ChromaState :=
  st.filter fun p => decide (p.1 ≠ name)

/-- Model of `client.create_collection(name)` (build_index.py 68-71): a fresh
empty collection. -/
def createCollection (st : ChromaState) (name : String) : ChromaState :=
  (name, []) :: st

/-- Model of `collection.add(...)`: append entries to the named collection. -/
def addToCollection (st : ChromaState) (name : String) (es : List IndexEntry) : ChromaState :=
  st.map fun p => if p.1 = name then (p.1, p.2 ++ es) else p

/-- The batch-write loop of build_index.py 96-103: add 100 entries at a time. -/
def addInBatches (st : ChromaState) (name : String) (es : List IndexEntry) : ChromaState :=
  if h : es = [] then st
  else addInBatches (addToCollection st name (es.take 100)) name (es.drop 100)
termination_by es.length
decreasing_by
  have : 0 < es.length := List.length_pos.mpr h
  simp only [List.length_drop]
  omega

/-- The relational store as read by `load_chunks_from_db` (chunking.py 112-142). -/
structure Store where
  tickets : List TicketSrcRow
  scripts : List ScriptRow
  kb : List KbRow

/-- Model of `load_chunks_from_db`: ticket chunks, then script chunks, then KB
chunks; `none` propagates divergence of the sliding-window split. -/
def loadChunksFromStore (store : Store) (size overlap : Nat) : Option (List Chunk) := do
  let t ← store.tickets.mapM fun r => chunksFromTicketRow r size overlap
  let s ← store.scripts.mapM fun r => chunksFromScriptRow r size overlap
  let k ← store.kb.mapM fun r => chunksFromKbRow r size overlap
  pure (t.flatten ++ s.flatten ++ k.flatten)

/-- Shallow embedding of `build_index` (build_index.py 40-105): delete any
collection of the configured name, create a fresh one, load and convert all
chunks, and — only when there is at least one — batch-write them. Returns the
chunk count and the resulting vector-store state. -/
def build_index (store : Store) (st : ChromaState) (name : String) (size overlap : Nat) :
    Option (Nat × ChromaState) :=
  let st1 := createCollection (deleteCollection st name) name
  (loadChunksFromStore store size overlap).map fun chunks =>
    let entries := chunks.map chunkEntry
    if entries = [] then (0, st1)
    else (entries.length, addInBatches st1 name entries)

theorem lookup_deleteCollection (st : ChromaState) (name other : String)
    (hother : other ≠ name) :
    (deleteCollection st name).lookup other = st.lookup other := by
  induction st with
  | nil => rfl
  | cons p rest ih =>
    by_cases hp : p.1 = name
    · rw [show deleteCollection (p :: rest) name = deleteCollection rest name by
        simp [deleteCollection, List.filter_cons, hp]]
      rw [ih]
      have : (other == p.1) = false := by
        rw [hp]
        exact beq_eq_false_iff_ne.mpr hother
      cases p with
      | mk k v =>
        simp only [List.lookup]
        simp only at this
        rw [this]
    · rw [show deleteCollection (p :: rest) name = p :: deleteCollection rest name by
        simp [deleteCollection, List.filter_cons, hp]]
      cases p with
      | mk k v =>
        simp only [List.lookup]
        by_cases ho : (other == k) = true
        · rw [ho]
        · rw [Bool.not_eq_true] at ho
          rw [ho]
          exact ih

/-- C10: a build over a store that yields zero chunks is not a no-op on the
vector store — it still deletes any pre-existing collection of the configured
name and creates a fresh empty one before returning count 0; collections under
other names are untouched. -/
theorem build_index_empty_store_destructive (store : Store) (st : ChromaState)
    (name : String) (size overlap : Nat)
    (h : loadChunksFromStore store size overlap = some []) :
    build_index store st name size overlap =
      some (0, (name, []) :: (st.filter fun p => decide (p.1 ≠ name))) ∧
    ((name, []) :: (st.filter fun p => decide (p.1 ≠ name))).lookup name = some [] ∧
    (∀ other : String, other ≠ name →
      ((name, []) :: (st.filter fun p => decide (p.1 ≠ name))).lookup other =
        st.lookup other) := by
  refine ⟨?_, ?_, ?_⟩
  · unfold build_index
    rw [h]
    simp [createCollection, deleteCollection]
  · simp [List.lookup]
  · intro other hother
    have hbeq : (other == name) = false := beq_eq_false_iff_ne.mpr hother
    simp only [List.lookup, hbeq]
    exact lookup_deleteCollection st name other hother

/-! ### Witnesses: each hypothesis-bearing claim theorem evaluated at a
concrete input -/

/-- Witness for C2 at text `"abcdefgh"`, size 3, overlap 1. -/
theorem sliding_chunks_window_spec_witness :
    1 < 3 ∧ 3 < (stripChars ("abcdefgh".data)).length ∧
    (∃ (cs : List (List Char)) (hpos : 0 < cs.length),
      slidingChunks ("abcdefgh".data) 3 1 = some cs ∧
      (∀ (i : Nat) (hi : i < cs.length),
        cs.get ⟨i, hi⟩ = ((stripChars ("abcdefgh".data)).drop (i * (3 - 1))).take 3) ∧
      (∀ (i : Nat) (hi : i + 1 < cs.length), (cs.get ⟨i, by omega⟩).length = 3) ∧
      (∀ (i : Nat) (hi : i + 1 < cs.length),
        (cs.get ⟨i, by omega⟩).drop (3 - 1) = (cs.get ⟨i + 1, hi⟩).take 1) ∧
      (cs.length - 1) * (3 - 1) +
        (cs.get ⟨cs.length - 1, by omega⟩).length = (stripChars ("abcdefgh".data)).length) :=
  ⟨by decide, by decide,
    sliding_chunks_window_spec ("abcdefgh".data) 3 1 (by decide) (by decide)⟩

/-- Witness for C3 at text `"abcdef"`, size 2, overlap 2: even with a thousand
iterations of fuel the loop has not returned. -/
theorem sliding_chunks_no_fail_fast_witness :
    2 ≤ 2 ∧ 2 < (stripChars ("abcdef".data)).length ∧
    slidingChunksFuel 1000 ("abcdef".data) 2 2 = none :=
  ⟨by decide, by decide,
    sliding_chunks_no_fail_fast ("abcdef".data) 2 2 (by decide) (by decide) 1000⟩

/-- Witness for C4 (amended): a query against a missing index path returns
`.ok []`, and a successful query against a one-entry collection returns at most
one hit. -/
theorem query_chroma_clamped_guarded_witness :
    query_chroma "anything" ⟨false, true, [⟨"doc".data, "ticket", "T1", 0, 1⟩]⟩ 5 = .ok [] ∧
    (([⟨"doc".data, "ticket", "T1", 0, some 1⟩] : List QueryHit).length ≤
        ([⟨"doc".data, "ticket", "T1", 0, 1⟩] : List QueryEntry).length ∧
      ([⟨"doc".data, "ticket", "T1", 0, some 1⟩] : List QueryHit).length ≤ 5) :=
  ⟨query_chroma_clamped_guarded.2.1 "anything"
      ⟨false, true, [⟨"doc".data, "ticket", "T1", 0, 1⟩]⟩ 5 rfl,
    query_chroma_clamped_guarded.1 "anything"
      ⟨true, true, [⟨"doc".data, "ticket", "T1", 0, 1⟩]⟩ 5
      [⟨"doc".data, "ticket", "T1", 0, some 1⟩] rfl⟩

/-- Witness for C7 (amended) at a whitespace-free article id. -/
theorem kb_incremental_matches_build_witness :
    stripStr "K1" = "K1" ∧ "K1" ≠ "" ∧
    addKbArticleEntries "K1" "Reset Guide" "Step 1" 600 100 =
      buildKbEntries ⟨"K1", "Reset Guide", "Step 1"⟩ 600 100 :=
  ⟨by decide, by decide,
    kb_incremental_matches_build "K1" "Reset Guide" "Step 1" 600 100 (by decide) (by decide)⟩

/-- Environment used by the C8 witness. -/
def envFence : AgentEnv :=
  { chromaPath := "data/chroma"
    chromaExists := true
    queryResult := .ok [⟨some "T1"⟩]
    dbPath := "data/supportmind.db"
    dbExists := true
    db := .ok ⟨[("T1", rowT1)], []⟩
    apiKey := some "sk-test"
    clientInit := .ok ()
    llmResult := .error "replaced by the witness"
    parse := fun _ => .error "invalid"
    incomingHook := none
    outgoingHook := none }

/-- Witness for C8 at a fenced response with language tag `json` and body
`[1]`. -/
theorem fence_wrapped_response_equiv_witness :
    ('\n' ∉ ("json".data)) ∧ stripChars ("[1]".data) = "[1]".data ∧
    startsWithChars fence3 ("[1]".data) = false ∧
    compare { envFence with llmResult := .ok (wrapFence ("json".data) ("[1]".data)) } "q" =
      compare { envFence with llmResult := .ok ("[1]".data) } "q" :=
  ⟨by decide, by decide, by decide,
    fence_wrapped_response_equiv envFence "q" ("json".data) ("[1]".data)
      (by decide) (by decide) (by decide)⟩

/-- Environment used by the C9 witness: the index path is missing. -/
def envNoChroma : AgentEnv :=
  { chromaPath := "missing/chroma"
    chromaExists := false
    queryResult := .error "no index"
    dbPath := "missing/db"
    dbExists := false
    db := .error "no db"
    apiKey := none
    clientInit := .error "no client"
    llmResult := .error "no call"
    parse := fun _ => .error "no parse"
    incomingHook := none
    outgoingHook := none }

/-- Witness for C9: the missing-index failure surfaces as `AgentError` with its
descriptive message. -/
theorem agent_error_single_kind_witness :
    (compare envNoChroma "help").1 = .error ⟨"Chroma index not found: missing/chroma"⟩ :=
  agent_error_single_kind.1 envNoChroma "help" rfl

/-- A pre-existing indexed entry used by the C10 witness. -/
def entryK9 : IndexEntry := ⟨"kb_K9_0", "doc".data, "kb", "K9", 0⟩

/-- Witness for C10: an empty store still replaces the pre-existing
`supportmind` collection with a fresh empty one. -/
theorem build_index_empty_store_destructive_witness :
    loadChunksFromStore ⟨[], [], []⟩ 600 100 = some [] ∧
    build_index ⟨[], [], []⟩ [("supportmind", [entryK9]), ("legacy", [])]
        "supportmind" 600 100 =
      some (0, ("supportmind", []) ::
        ([("supportmind", [entryK9]), ("legacy", [])].filter
          fun p => decide (p.1 ≠ "supportmind"))) :=
  ⟨rfl,
    (build_index_empty_store_destructive ⟨[], [], []⟩
      [("supportmind", [entryK9]), ("legacy", [])] "supportmind" 600 100 rfl).1⟩

end SupportMind
